import Mathlib

/-!
Verification of the GoDaddy API client (`provider/godaddy/client.go`).

The Go source is shallowly embedded below.  External collaborators are
modelled at their call boundary:

* `http.Client.Do` — a list of `SendResult` values, one per invocation of
  the underlying transport, consumed in order;
* `rand.Int63n` — a list of jitter draws (`List Nat`), consumed in order;
  the panic of `rand.Int63n(n)` for `n ≤ 0` is modelled by the
  `DoResult.panicked` outcome;
* `rate.Limiter.Wait(ctx)` — an event recording whether the request's
  context was canceled; the Go code discards the returned error, and so
  does the embedding;
* `json.Unmarshal` / `json.Marshal` / `io.ReadAll` — their outcomes are
  part of the modelled response body / request body inputs.

Every step of `Do`, and the `defer response.Body.Close()` of
`UnmarshalResponse`, is recorded in an event trace (`List Ev`) so that
theorems can speak about which effects occur and in which order.
-/

namespace Godaddy

/-- `ErrCodeQuotaExceeded` constant from the source. -/
def ErrCodeQuotaExceeded : String := "QUOTA_EXCEEDED"

/-- `DefaultTimeout = 180 * time.Second`, modelled in seconds. -/
def DefaultTimeout : Int := 180

/-- Modelled from the spec: `externaldns.UserAgent()` (package
`sigs.k8s.io/external-dns/pkg/apis/externaldns`, not under `src/`) is "a
product-identifying user-agent string"; any fixed string models it. -/
def externaldnsUserAgent : String := "ExternalDNS"

/-- `APIError` struct: machine-readable code and human-readable message. -/
structure APIError where
  Code : String
  Message : String
  deriving DecidableEq, Repr

/-- Result of `json.Unmarshal`-ing a response body into the `APIError`
shape: either the parse fails, or it succeeds and each of the two fields
is either set by the body or left untouched. -/
inductive ErrShape
  | malformed
  | errObj (code : Option String) (message : Option String)
  deriving DecidableEq, Repr

/-- The observable content of a response body, at the boundaries where the
Go code consumes it: `io.ReadAll` success, emptiness, its parse as the
`APIError` shape, and whether `json.Unmarshal` into the caller-supplied
target succeeds. -/
structure RespBody where
  readOk : Bool
  isEmpty : Bool
  asAPIError : ErrShape
  asTarget : Bool
  deriving DecidableEq, Repr

/-- An HTTP response, restricted to the parts `Do` and
`UnmarshalResponse` consume: status code, `Retry-After` header
(`none` = absent, so `Header.Get` yields `""`), and body. -/
structure Resp where
  statusCode : Int
  retryAfter : Option String
  body : RespBody
  deriving DecidableEq, Repr

/-- One invocation of the underlying transport `c.Client.Do(req)`:
either a transport error (in which case Go's `http.Client` returns a nil
response) or a response. -/
inductive SendResult
  | err (msg : String)
  | ok (r : Resp)
  deriving DecidableEq, Repr

/-- Events recorded while executing the pipeline, in order. -/
inductive Ev
  /-- `c.Logger.LogRequest(req)` was invoked. -/
  | logRequest
  /-- `c.Ratelimiter.Wait(req.Context())` was invoked; the flag records
  whether the context was canceled (the Go code discards Wait's error). -/
  | wait (ctxCanceled : Bool)
  /-- the underlying transport `c.Client.Do(req)` was invoked. -/
  | send
  /-- the transport returned a (non-nil) response. -/
  | gotResponse
  /-- `time.Sleep` for the given number of seconds. -/
  | sleep (sec : Int)
  /-- `c.Logger.LogResponse(resp)` was invoked. -/
  | logResponse
  /-- a response body was closed (`response.Body.Close()`). -/
  | closedBody
  deriving DecidableEq, Repr

/-- Outcome of `Do`. `panicked` models the runtime panic of
`rand.Int63n(n)` with `n ≤ 0`; `stuck` only arises when the modelled
transport/jitter streams are too short for the run (never under the
theorems' hypotheses). -/
inductive DoResult
  | ok (r : Resp)
  | err (msg : String)
  | panicked
  | stuck
  deriving DecidableEq, Repr

/-- Outcome of `UnmarshalResponse`, separating the error classes the Go
code returns: `io.ReadAll` failure, `json.Unmarshal` failure on the error
path, a structured `*APIError`, `json.Unmarshal` failure into the
caller's target, and success. -/
inductive UnmarshalResult
  | readErr
  | parseErr
  | apiErr (e : APIError)
  | decodeErr
  | ok
  deriving DecidableEq, Repr

/-- The mutable settings of the embedded `*http.Client` that this code
touches: only its `Timeout` field. -/
structure HTTPClientState where
  Timeout : Int
  deriving DecidableEq, Repr

/-- The `Client` struct: configuration plus the underlying transport's
settings and the rate-limiter parameters fixed at construction. -/
structure Client where
  APIKey : String
  APISecret : String
  APIEndPoint : String
  httpClient : HTTPClientState
  ratelimitSecondsPerToken : Int
  ratelimitBurst : Int
  loggerSet : Bool
  Timeout : Int
  deriving DecidableEq, Repr

/-- The observable parts of the `*http.Request` built by `NewRequest`:
method, target URL, the four injected headers, and the serialized body. -/
structure GDRequest where
  method : String
  url : String
  contentType : Option String
  authorization : Option String
  accept : Option String
  userAgent : Option String
  body : Option String
  deriving DecidableEq, Repr

/-- The outcome of `json.Marshal(reqBody)` at `NewRequest`'s boundary:
`noBody` models `reqBody == nil` (no marshalling attempted), `marshalErr`
a failed marshal, `bytes s` a successful one. -/
inductive MarshalResult
  | noBody
  | marshalErr
  | bytes (s : String)
  deriving DecidableEq, Repr

/-- The outcome of the construction-time `c.validate()` call, at the
granularity `NewClient` inspects it: success, an error that
`errors.As(err, &apiErr)` resolves to a `*APIError`, or any other error
(transport failure, decode failure, ...). -/
inductive ValidateOutcome
  | ok
  | apiErr (e : APIError)
  | nonAPIError (msg : String)
  deriving DecidableEq, Repr

/-- Decimal digit run to a natural number; `none` if empty or any
non-digit character appears. -/
def digitsVal? (cs : List Char) : Option Nat :=
  match cs with
  | [] => none
  | _ =>
    cs.foldl
      (fun acc c =>
        match acc with
        | none => none
        | some n => if '0' ≤ c ∧ c ≤ '9' then some (n * 10 + (c.toNat - '0'.toNat)) else none)
      (some 0)

/-- `strconv.ParseInt(s, 10, 0)`: optional sign, then at least one
decimal digit; 64-bit range check (a range error, like a syntax error,
makes `err != nil`, which is all the caller inspects). -/
def parseInt10 (s : String) : Option Int :=
  match s.data with
  | [] => none
  | '+' :: rest =>
    (digitsVal? rest).bind fun n => if n ≤ 2 ^ 63 - 1 then some (Int.ofNat n) else none
  | '-' :: rest =>
    (digitsVal? rest).bind fun n => if n ≤ 2 ^ 63 then some (-(Int.ofNat n)) else none
  | cs =>
    (digitsVal? cs).bind fun n => if n ≤ 2 ^ 63 - 1 then some (Int.ofNat n) else none

/-- `NewRequest` (client.go:203-232).  Inputs at the library boundaries:
`reqBody` is the outcome of `json.Marshal` (or `noBody` when the caller
passed nil), `httpNewRequestOk` the success of `http.NewRequest`.
Returns the built request (or `none` on failure) together with the
client state after the call — the source executes
`c.Client.Timeout = c.Timeout` (line 229) before returning the request,
which writes the underlying transport's `Timeout` setting. -/
def NewRequest (c : Client) (method path : String) (reqBody : MarshalResult)
    (httpNewRequestOk : Bool) : Option GDRequest × Client :=
  match reqBody with
  | .marshalErr => (none, c)
  | _ =>
    let body : Option String := match reqBody with | .bytes s => some s | _ => none
    if httpNewRequestOk = false then (none, c)
    else
      let req : GDRequest :=
        { method := method
          url := c.APIEndPoint ++ path
          contentType := if body.isSome then some "application/json;charset=utf-8" else none
          authorization := some ("sso-key " ++ c.APIKey ++ ":" ++ c.APISecret)
          accept := some "application/json"
          userAgent := some externaldnsUserAgent
          body := body }
      (some req, { c with httpClient := { Timeout := c.Timeout } })

/-- The retry loop of `Do` (client.go:246-264),
`for i := 1; i < 3 && resp != nil && resp.StatusCode == 429; i++`.
`budget` is the number of loop iterations still allowed (`3 - i`), `cc`
whether the request's context is canceled, `resp` the current response,
`tr`/`js` the remaining transport results and jitter draws.  One
iteration: parse `Retry-After` (break on error), draw the jitter
(`rand.Int63n` panics when `Retry-After ≤ 0`), sleep
`retryAfter + jitter/2` seconds, `Ratelimiter.Wait` (error discarded),
resend (a transport error returns a wrapped error). -/
def doLoop (cc : Bool) : Nat → Resp → List SendResult → List Nat → DoResult × List Ev
  | 0, resp, _, _ => (.ok resp, [])
  | b + 1, resp, tr, js =>
    if resp.statusCode = 429 then
      match parseInt10 (resp.retryAfter.getD "") with
      | none => (.ok resp, [])
      | some retryAfter =>
        if retryAfter ≤ 0 then (.panicked, [])
        else
          match js with
          | [] => (.stuck, [])
          | jitter :: js' =>
            let retryAfterSec : Int := retryAfter + Int.ofNat (jitter / 2)
            match tr with
            | [] => (.stuck, [.sleep retryAfterSec, .wait cc])
            | .err e :: _ =>
              (.err ("doing request after waiting for retry after: " ++ e),
               [.sleep retryAfterSec, .wait cc, .send])
            | .ok r :: tr' =>
              let rest := doLoop cc b r tr' js'
              (rest.1, [.sleep retryAfterSec, .wait cc, .send, .gotResponse] ++ rest.2)
    else (.ok resp, [])

/-- `Do` (client.go:235-269).  `loggerSet` models `c.Logger != nil`, `cc`
whether `req.Context()` is canceled, `tr` the successive outcomes of the
underlying transport, `js` the successive `rand.Int63n` draws.  Mirrors
the source: optional `LogRequest`, `Ratelimiter.Wait` with its error
discarded, initial send (error returned unwrapped), the retry loop, then
optional `LogResponse` on the final response. -/
def Do (loggerSet cc : Bool) (tr : List SendResult) (js : List Nat) : DoResult × List Ev :=
  let pre := (if loggerSet then [Ev.logRequest] else []) ++ [Ev.wait cc]
  match tr with
  | [] => (.stuck, pre)
  | .err e :: _ => (.err e, pre ++ [Ev.send])
  | .ok r :: tr' =>
    match doLoop cc 2 r tr' js with
    | (.ok final, evs) =>
      (.ok final,
       pre ++ [Ev.send, Ev.gotResponse] ++ evs ++ (if loggerSet then [Ev.logResponse] else []))
    | (other, evs) => (other, pre ++ [Ev.send, Ev.gotResponse] ++ evs)

/-- `UnmarshalResponse` (client.go:328-355).  `resTypeNil` models
`resType == nil`.  The `defer response.Body.Close()` at the top makes
every path emit a `closedBody` event.  Non-2xx: `apiError` is
pre-filled with the `HTTPStatus:` pseudo-code, then `json.Unmarshal`
overwrites whichever of `Code`/`Message` the body supplies (a failed
parse is returned as-is).  2xx: empty body or nil target short-circuits;
otherwise the body is unmarshalled into the target. -/
def UnmarshalResponse (response : Resp) (resTypeNil : Bool) : UnmarshalResult × List Ev :=
  let closeEv := [Ev.closedBody]
  if response.body.readOk = false then (.readErr, closeEv)
  else if response.statusCode < 200 ∨ 300 ≤ response.statusCode then
    match response.body.asAPIError with
    | .malformed => (.parseErr, closeEv)
    | .errObj co mo =>
      (.apiErr
        { Code := co.getD ("HTTPStatus: " ++ toString response.statusCode)
          Message := mo.getD "" }, closeEv)
  else if response.body.isEmpty ∨ resTypeNil then (.ok, closeEv)
  else if response.body.asTarget then (.ok, closeEv)
  else (.decodeErr, closeEv)

/-- The `Do` + `UnmarshalResponse` tail of `CallAPIWithContext`
(client.go:319-323): when `Do` yields a response it is handed to the
decoder; on error the decoder never runs.  Returns the full event
trace. -/
def execAndDecode (loggerSet cc : Bool) (tr : List SendResult) (js : List Nat)
    (resTypeNil : Bool) : List Ev :=
  match Do loggerSet cc tr js with
  | (.ok r, evs) => evs ++ (UnmarshalResponse r resTypeNil).2
  | (_, evs) => evs

/-- The `Client` literal built by `NewClient` (client.go:125-133):
`&http.Client{}` (zero `Timeout`), `rate.NewLimiter(rate.Every(time.Second), 60)`,
nil logger, `DefaultTimeout`. -/
def mkClient (useOTE : Bool) (apiKey apiSecret : String) : Client :=
  { APIKey := apiKey
    APISecret := apiSecret
    APIEndPoint := if useOTE then "https://api.ote-godaddy.com" else "https://api.godaddy.com"
    httpClient := { Timeout := 0 }
    ratelimitSecondsPerToken := 1
    ratelimitBurst := 60
    loggerSet := false
    Timeout := DefaultTimeout }

/-- `NewClient` (client.go:116-146).  `validateResult` is the outcome of
the construction-time `c.validate()` call.  The source only aborts when
`errors.As(err, &apiErr)` succeeds AND the code differs from
`ErrCodeQuotaExceeded`; on abort the validation error itself is
returned. -/
def NewClient (useOTE : Bool) (apiKey apiSecret : String)
    (validateResult : ValidateOutcome) : Except ValidateOutcome Client :=
  let client := mkClient useOTE apiKey apiSecret
  match validateResult with
  | .apiErr e => if e.Code ≠ ErrCodeQuotaExceeded then .error validateResult else .ok client
  | _ => .ok client

/-- Whether a `NewClient` outcome is a successfully constructed client. -/
def constructionSucceeds : Except ValidateOutcome Client → Bool
  | .ok _ => true
  | .error _ => false

/-- Number of occurrences of an event in a trace. -/
def countEv (e : Ev) : List Ev → Nat
  | [] => 0
  | x :: xs => (if x = e then 1 else 0) + countEv e xs

/-- Number of transport invocations in a trace. -/
def sendCount (evs : List Ev) : Nat := countEv .send evs

/-- The sleep durations (seconds) in a trace, in order. -/
def sleeps : List Ev → List Int
  | [] => []
  | .sleep d :: xs => d :: sleeps xs
  | _ :: xs => sleeps xs

/-- Spec-side predicate for the amended construction claim: validation
outcomes tolerated by `NewClient` are success, a `*APIError` carrying
exactly the quota-exceeded code, and every failure that is not a
`*APIError` (transport errors included); only a `*APIError` with a
different code aborts construction. -/
def validationTolerated : ValidateOutcome → Bool
  | .apiErr e => e.Code = ErrCodeQuotaExceeded
  | _ => true

/-- A well-formed response body whose `APIError` parse yields the
spec's example code and message. -/
def sampleBody : RespBody :=
  { readOk := true
    isEmpty := false
    asAPIError := .errObj (some "QUOTA_EXCEEDED") (some "limit hit")
    asTarget := true }

/-- A 429 response with the given `Retry-After` header. -/
def sample429 (ra : Option String) : Resp :=
  { statusCode := 429, retryAfter := ra, body := sampleBody }

/-- A 200 response. -/
def sample200 : Resp :=
  { statusCode := 200, retryAfter := none, body := sampleBody }

/-- A sample client as built by `NewClient` for the production endpoint. -/
def sampleClient : Client := mkClient false "key" "secret"

theorem countEv_append (e : Ev) (l₁ l₂ : List Ev) :
    countEv e (l₁ ++ l₂) = countEv e l₁ + countEv e l₂ := by
  induction l₁ with
  | nil => simp [countEv]
  | cons x xs ih => simp [countEv, ih]; omega

theorem doLoop_no_log (cc : Bool) (b : Nat) (r : Resp) (tr : List SendResult) (js : List Nat) :
    countEv .logRequest (doLoop cc b r tr js).2 = 0 ∧
    countEv .logResponse (doLoop cc b r tr js).2 = 0 := by
  induction b generalizing r tr js with
  | zero => simp [doLoop, countEv]
  | succ b ih =>
    simp only [doLoop]
    repeat' split
    all_goals simp [countEv, countEv_append, ih]

/-- C1 counterexample: the claim says a transport error during the
construction-time validation call makes construction fail; at the
concrete input where validation fails with an error that is not a
`*APIError` (a transport error), `NewClient` nevertheless returns the
client — `errors.As` yields `ok = false`, the abort branch is skipped,
and the error is swallowed. -/
theorem newClient_transport_error_counterexample :
    constructionSucceeds
      (NewClient false "key" "secret" (.nonAPIError "connection refused")) = true := rfl

/-- C1 (amended): construction succeeds on exactly the validation
outcomes `validationTolerated` accepts — success, a `*APIError` with
code `QUOTA_EXCEEDED`, or any failure that is not a `*APIError`
(transport errors included) — and when it fails it propagates the
validation error itself to the caller. -/
theorem newClient_validation (useOTE : Bool) (k s : String) (v : ValidateOutcome) :
    constructionSucceeds (NewClient useOTE k s v) = validationTolerated v ∧
    (validationTolerated v = false → NewClient useOTE k s v = .error v) := by
  cases v with
  | ok => exact ⟨rfl, by simp [validationTolerated]⟩
  | nonAPIError m => exact ⟨rfl, by simp [validationTolerated]⟩
  | apiErr e =>
    by_cases h : e.Code = ErrCodeQuotaExceeded
    · simp [NewClient, validationTolerated, constructionSucceeds, h]
    · simp [NewClient, validationTolerated, constructionSucceeds, h]

/-- C1 witness: the amended theorem applied at a validation failure
carrying code `NOT_FOUND`: construction fails and returns that very
error. -/
theorem newClient_validation_witness :
    validationTolerated (.apiErr ⟨"NOT_FOUND", "no such domain"⟩) = false ∧
    NewClient false "key" "secret" (.apiErr ⟨"NOT_FOUND", "no such domain"⟩) =
      .error (.apiErr ⟨"NOT_FOUND", "no such domain"⟩) :=
  ⟨by decide, (newClient_validation false "key" "secret" _).2 (by decide)⟩

/-- C5: for a response with status outside [200,300) whose body was
read, the decoder returns the `APIError` parsed from the body — `Code`
and `Message` exactly as supplied, with the HTTP-status pseudo-code
(resp. the empty message) filling whichever field the body omits — and
when the body fails to parse as the error shape, that parse failure
itself is returned rather than a synthesized `APIError`. -/
theorem unmarshalResponse_error_envelope (r : Resp) (t : Bool)
    (hs : r.statusCode < 200 ∨ 300 ≤ r.statusCode) (hr : r.body.readOk = true) :
    (∀ co mo, r.body.asAPIError = .errObj co mo →
      (UnmarshalResponse r t).1 =
        .apiErr ⟨co.getD ("HTTPStatus: " ++ toString r.statusCode), mo.getD ""⟩) ∧
    (r.body.asAPIError = .malformed → (UnmarshalResponse r t).1 = .parseErr) := by
  constructor
  · intro co mo hco
    simp [UnmarshalResponse, hr, hs, hco]
  · intro hmal
    simp [UnmarshalResponse, hr, hs, hmal]

/-- C5 witness: the theorem at a 429 response whose body is the spec's
example error envelope, decoding to exactly that code and message. -/
theorem unmarshalResponse_error_envelope_witness :
    ((sample429 none).statusCode < 200 ∨ 300 ≤ (sample429 none).statusCode) ∧
    (UnmarshalResponse (sample429 none) true).1 =
      .apiErr ⟨"QUOTA_EXCEEDED", "limit hit"⟩ :=
  ⟨by decide,
    (unmarshalResponse_error_envelope (sample429 none) true (by decide) rfl).1
      (some "QUOTA_EXCEEDED") (some "limit hit") rfl⟩

/-- C6 counterexample: with the request's context canceled while
"waiting" on the rate limiter, `Do` still invokes the underlying
transport once — the claim says no HTTP send is performed; the
cancellation only surfaces as the transport's own error. -/
theorem do_canceled_still_sends_counterexample :
    sendCount (Do false true [.err "context canceled"] []).2 = 1 ∧
    (Do false true [.err "context canceled"] []).1 = .err "context canceled" :=
  ⟨rfl, rfl⟩

/-- C6 (amended): the source discards the rate limiter's error
(`c.Ratelimiter.Wait(req.Context())`, result ignored, client.go:240),
so even with the context canceled `Do` proceeds to invoke the
transport; the cancellation surfaces only as the transport's error,
which `Do` returns unwrapped — no response is produced, hence nothing
reaches the decoder and no response hook fires. -/
theorem do_ignores_limiter_cancellation (lg : Bool) (e : String) (tr : List SendResult)
    (js : List Nat) :
    (Do lg true (.err e :: tr) js).1 = .err e ∧
    (Do lg true (.err e :: tr) js).2 =
      (if lg then [Ev.logRequest] else []) ++ [Ev.wait true, Ev.send] := by
  cases lg <;> simp [Do]

/-- C8 counterexample: the claim says no call mutates any client
configuration, including the underlying transport's settings; building
one request on a freshly constructed client changes the transport's
`Timeout` setting (`c.Client.Timeout = c.Timeout`, client.go:229). -/
theorem newRequest_mutates_transport_counterexample :
    (NewRequest sampleClient "GET" "/v1/domains/example.com" .noBody true).2 ≠
      sampleClient := by decide

/-- C8 (amended): request construction reads the authentication key,
secret, endpoint, timeout and rate-limit configuration without changing
them; its only write is `c.Client.Timeout = c.Timeout`, which copies the
configured timeout into the underlying transport's `Timeout` setting on
every successful construction (skipped when marshalling or
`http.NewRequest` fails). -/
theorem newRequest_config_frame (c : Client) (method path : String) (b : MarshalResult)
    (hok : Bool) :
    ((NewRequest c method path b hok).2).APIKey = c.APIKey ∧
    ((NewRequest c method path b hok).2).APISecret = c.APISecret ∧
    ((NewRequest c method path b hok).2).APIEndPoint = c.APIEndPoint ∧
    ((NewRequest c method path b hok).2).Timeout = c.Timeout ∧
    ((NewRequest c method path b hok).2).ratelimitSecondsPerToken =
      c.ratelimitSecondsPerToken ∧
    ((NewRequest c method path b hok).2).ratelimitBurst = c.ratelimitBurst ∧
    ((NewRequest c method path b hok).2).loggerSet = c.loggerSet ∧
    ((NewRequest c method path b hok).2 = c ∨
      (NewRequest c method path b hok).2 = { c with httpClient := { Timeout := c.Timeout } }) := by
  cases b <;> cases hok <;> simp [NewRequest]

/-- C9: at the failing input — first send returns 429 with `Retry-After:
1`, second send returns 200 — the pipeline obtains two responses from
the transport but closes only one body: `Do`'s retry loop overwrites the
intermediate 429 response without closing it (no `Body.Close()` exists in
`Do`), and only the final response is closed, by `UnmarshalResponse`'s
defer. -/
theorem retry_loop_leaks_intermediate_body :
    countEv .gotResponse
      (execAndDecode false false [.ok (sample429 (some "1")), .ok sample200] [0] true) = 2 ∧
    countEv .closedBody
      (execAndDecode false false [.ok (sample429 (some "1")), .ok sample200] [0] true) = 1 :=
  ⟨rfl, rfl⟩

/-- C10: a 429 response whose `Retry-After` header parses to an integer
`n ≤ 0` drives `rand.Int63n(n)` into its panic precondition, so `Do`
panics instead of retrying or returning an error. -/
theorem do_nonpositive_retry_after_panics (lg cc : Bool) (r : Resp) (tr : List SendResult)
    (js : List Nat) (n : Int)
    (h429 : r.statusCode = 429) (hp : parseInt10 (r.retryAfter.getD "") = some n)
    (hn : n ≤ 0) :
    (Do lg cc (.ok r :: tr) js).1 = .panicked := by
  simp [Do, doLoop, h429, hp, hn]

/-- C2 counterexample: the claim's hypothesis admits `Retry-After: 0`,
which parses as the integer 0; there the first retry's `rand.Int63n(0)`
panics — only one send occurs and no response is ever returned for
decoding, instead of three sends with the last response decoded. -/
theorem do_three_attempts_counterexample :
    (Do true false [.ok (sample429 (some "0")), .ok (sample429 (some "0")),
        .ok (sample429 (some "0"))] [0, 0]).1 = .panicked ∧
    sendCount (Do true false [.ok (sample429 (some "0")), .ok (sample429 (some "0")),
        .ok (sample429 (some "0"))] [0, 0]).2 = 1 :=
  ⟨rfl, rfl⟩

/-- C2 (amended): when every send yields a 429 response whose
`Retry-After` header parses to a positive integer, `Do` performs exactly
2 retries after the initial send — 3 sends in total, never a fourth (the
transport tail `tr` is never consumed) — and the third response,
whatever its status, is the one returned for decoding. -/
theorem do_three_attempts (lg cc : Bool) (r1 r2 r3 : Resp) (tr : List SendResult)
    (j1 j2 : Nat) (js : List Nat) (n1 n2 : Int)
    (h1 : r1.statusCode = 429) (p1 : parseInt10 (r1.retryAfter.getD "") = some n1)
    (q1 : 0 < n1)
    (h2 : r2.statusCode = 429) (p2 : parseInt10 (r2.retryAfter.getD "") = some n2)
    (q2 : 0 < n2) :
    (Do lg cc (.ok r1 :: .ok r2 :: .ok r3 :: tr) (j1 :: j2 :: js)).1 = .ok r3 ∧
    sendCount (Do lg cc (.ok r1 :: .ok r2 :: .ok r3 :: tr) (j1 :: j2 :: js)).2 = 3 := by
  have hq1 : ¬ n1 ≤ 0 := by omega
  have hq2 : ¬ n2 ≤ 0 := by omega
  constructor
  · simp [Do, doLoop, h1, p1, hq1, h2, p2, hq2]
  · cases lg <;>
      simp [Do, doLoop, h1, p1, hq1, h2, p2, hq2, sendCount, countEv, countEv_append]

/-- C2 witness: the amended theorem at three 429 responses carrying
`Retry-After: 2`: three sends, the third response is returned, the
fourth transport entry is never used. -/
theorem do_three_attempts_witness :
    parseInt10 (((sample429 (some "2")).retryAfter).getD "") = some 2 ∧ (0 : Int) < 2 ∧
    (Do true false [.ok (sample429 (some "2")), .ok (sample429 (some "2")),
        .ok (sample429 (some "2")), .ok sample200] [1, 1, 1]).1 = .ok (sample429 (some "2")) ∧
    sendCount (Do true false [.ok (sample429 (some "2")), .ok (sample429 (some "2")),
        .ok (sample429 (some "2")), .ok sample200] [1, 1, 1]).2 = 3 :=
  ⟨by decide, by decide,
    (do_three_attempts true false (sample429 (some "2")) (sample429 (some "2"))
      (sample429 (some "2")) [.ok sample200] 1 1 [1] 2 2
      rfl (by decide) (by decide) rfl (by decide) (by decide)).1,
    (do_three_attempts true false (sample429 (some "2")) (sample429 (some "2"))
      (sample429 (some "2")) [.ok sample200] 1 1 [1] 2 2
      rfl (by decide) (by decide) rfl (by decide) (by decide)).2⟩

/-- C3: upon a 429 whose `Retry-After` header parses to `n > 0`, with a
jitter draw `j ∈ [0, n)`, the retry's single sleep is exactly
`n + ⌊j/2⌋` seconds; in particular for `Retry-After: 2` the delay `d`
satisfies `2 ≤ d < 3` (indeed `d = 2`, since `j ∈ [0,2)` forces
`⌊j/2⌋ = 0`). -/
theorem do_retry_sleep_formula (lg cc : Bool) (r1 r2 : Resp) (tr : List SendResult)
    (j : Nat) (js : List Nat) (n : Int)
    (h1 : r1.statusCode = 429) (p1 : parseInt10 (r1.retryAfter.getD "") = some n)
    (q1 : 0 < n) (hj : (j : Int) < n) (h2 : r2.statusCode ≠ 429) :
    sleeps (Do lg cc (.ok r1 :: .ok r2 :: tr) (j :: js)).2 = [n + Int.ofNat (j / 2)] ∧
    (n = 2 → 2 ≤ n + Int.ofNat (j / 2) ∧ n + Int.ofNat (j / 2) < 3) := by
  have hq1 : ¬ n ≤ 0 := by omega
  constructor
  · cases lg <;> simp [Do, doLoop, h1, p1, hq1, h2, sleeps]
  · intro hn2
    subst hn2
    have hj2 : j < 2 := by exact_mod_cast hj
    have hj0 : j / 2 = 0 := by omega
    rw [hj0]
    decide

/-- C3 witness: the theorem at `Retry-After: 2` with jitter draw 1: the
trace sleeps exactly `2 = 2 + ⌊1/2⌋` seconds, and `2 ≤ 2 < 3`. -/
theorem do_retry_sleep_formula_witness :
    ((1 : Nat) : Int) < 2 ∧
    sleeps (Do false false [.ok (sample429 (some "2")), .ok sample200] [1]).2 = [2] ∧
    (2 ≤ (2 : Int) + Int.ofNat (1 / 2) ∧ (2 : Int) + Int.ofNat (1 / 2) < 3) :=
  ⟨by decide,
    (do_retry_sleep_formula false false (sample429 (some "2")) sample200 [] 1 [] 2
      rfl (by decide) (by decide) (by decide) (by decide)).1,
    (do_retry_sleep_formula false false (sample429 (some "2")) sample200 [] 1 [] 2
      rfl (by decide) (by decide) (by decide) (by decide)).2 rfl⟩

/-- C4: a 429 response whose `Retry-After` header is absent (so
`Header.Get` yields `""`) or does not parse as an integer causes zero
retries: `Do` breaks out of the loop immediately and returns that 429
response unchanged after a single send, and — whenever its body parses
as the error envelope — the decoder turns it into an `APIError`. -/
theorem do_no_retry_without_valid_retry_after (lg cc : Bool) (r : Resp)
    (tr : List SendResult) (js : List Nat) (t : Bool)
    (h429 : r.statusCode = 429) (hp : parseInt10 (r.retryAfter.getD "") = none) :
    (Do lg cc (.ok r :: tr) js).1 = .ok r ∧
    sendCount (Do lg cc (.ok r :: tr) js).2 = 1 ∧
    (∀ co mo, r.body.readOk = true → r.body.asAPIError = .errObj co mo →
      ∃ e, (UnmarshalResponse r t).1 = .apiErr e) := by
  refine ⟨?_, ?_, ?_⟩
  · simp [Do, doLoop, h429, hp]
  · cases lg <;> simp [Do, doLoop, h429, hp, sendCount, countEv, countEv_append]
  · intro co mo hro hco
    refine ⟨⟨co.getD ("HTTPStatus: " ++ toString r.statusCode), mo.getD ""⟩, ?_⟩
    simp [UnmarshalResponse, hro, hco, h429]

/-- C4 witness: the theorem at a 429 response with no `Retry-After`
header: one send, the 429 itself returned, decoded as an `APIError`. -/
theorem do_no_retry_without_valid_retry_after_witness :
    parseInt10 (((sample429 none).retryAfter).getD "") = none ∧
    (Do true false [.ok (sample429 none), .ok sample200] [5]).1 = .ok (sample429 none) ∧
    sendCount (Do true false [.ok (sample429 none), .ok sample200] [5]).2 = 1 :=
  ⟨by decide,
    (do_no_retry_without_valid_retry_after true false (sample429 none) [.ok sample200]
      [5] true rfl (by decide)).1,
    (do_no_retry_without_valid_retry_after true false (sample429 none) [.ok sample200]
      [5] true rfl (by decide)).2.1⟩

/-- C7 counterexample: a request retried twice (three sends) with a
logger configured produces one request-hook invocation and one
response-hook invocation, not three of each — both hooks sit outside the
retry loop. -/
theorem do_logging_per_attempt_counterexample :
    sendCount (Do true false [.ok (sample429 (some "2")), .ok (sample429 (some "2")),
        .ok (sample429 (some "2"))] [1, 1]).2 = 3 ∧
    countEv .logRequest (Do true false [.ok (sample429 (some "2")), .ok (sample429 (some "2")),
        .ok (sample429 (some "2"))] [1, 1]).2 = 1 ∧
    countEv .logResponse (Do true false [.ok (sample429 (some "2")), .ok (sample429 (some "2")),
        .ok (sample429 (some "2"))] [1, 1]).2 = 1 :=
  ⟨rfl, rfl, rfl⟩

/-- C7 (amended): with a logger configured, the request hook fires
exactly once per `Do` call — as the very first action, before the first
send — and the response hook exactly once, on the final response (zero
times when a transport error aborts the call), however many retried
sends occur; without a logger neither fires; and logging does not alter
the returned result. -/
theorem do_logging_hooks (cc : Bool) (tr : List SendResult) (js : List Nat) :
    (Do true cc tr js).1 = (Do false cc tr js).1 ∧
    (Do true cc tr js).2.head? = some .logRequest ∧
    countEv .logRequest (Do true cc tr js).2 = 1 ∧
    countEv .logResponse (Do true cc tr js).2 =
      (match (Do true cc tr js).1 with | .ok _ => 1 | _ => 0) ∧
    countEv .logRequest (Do false cc tr js).2 = 0 ∧
    countEv .logResponse (Do false cc tr js).2 = 0 := by
  cases tr with
  | nil => simp [Do, countEv]
  | cons hd tl =>
    cases hd with
    | err e => simp [Do, countEv]
    | ok r =>
      obtain ⟨hq, hs⟩ := doLoop_no_log cc 2 r tl js
      cases hdl : doLoop cc 2 r tl js with
      | mk res evs =>
        rw [hdl] at hq hs
        cases res <;> simp [Do, hdl, countEv, countEv_append, hq, hs]

/-- C10 witness: the theorem at a 429 response with `Retry-After: 0`. -/
theorem do_nonpositive_retry_after_panics_witness :
    parseInt10 (((sample429 (some "0")).retryAfter).getD "") = some 0 ∧
    (Do true false [.ok (sample429 (some "0"))] []).1 = .panicked :=
  ⟨by decide,
    do_nonpositive_retry_after_panics true false (sample429 (some "0")) [] [] 0
      rfl (by decide) (by decide)⟩

end Godaddy
